import Mathlib

/-!
Verification of the newsletter generator (cli.py and app.py).

Python strings are modelled as `List Char` (`PyStr`); the Python string
operations used by the program (strip, split, join, replace, startswith,
substring membership, slicing) are given faithful executable definitions.
The opaque text-generation capability is modelled as an oracle
`gen : PyStr → Except PyStr PyStr` mapping a prompt to the continuation
text `generator(prompt)[0]['generated_text'][len(prompt):]`, or to an
error when the underlying model call raises.
-/

set_option maxRecDepth 4000

abbrev PyStr := List Char

/-- Python `str.strip()` whitespace test (ASCII whitespace suffices here). -/
def isPySpace (c : Char) : Bool := c.isWhitespace

/-- Python `s.strip()`: drop whitespace from both ends. -/
def pyStrip (s : PyStr) : PyStr :=
  (s.dropWhile isPySpace).rdropWhile isPySpace

/-- Python `s.split('\n')` (single-character separator). -/
def pySplitNl (s : PyStr) : List PyStr := s.splitOn '\n'

/-- Python `s.split('.')`. -/
def pySplitDot (s : PyStr) : List PyStr := s.splitOn '.'

/-- Scanner for `pySplit`. Every step consumes at least one character of
the subject, so fuel `s.length + 1` makes the fuel-exhausted branch
unreachable; fuel keeps the recursion structural. -/
def pySplitGo (sep : PyStr) : Nat → PyStr → PyStr → List PyStr
  | _, [], cur => [cur.reverse]
  | 0, s, cur => [cur.reverse ++ s]
  | fuel + 1, c :: rest, cur =>
    if sep.isPrefixOf (c :: rest) then
      cur.reverse :: pySplitGo sep fuel (List.drop (sep.length - 1) rest) []
    else
      pySplitGo sep fuel rest (c :: cur)

/-- Python `s.split(sep)` for a multi-character separator `sep`
(non-overlapping, left to right). -/
def pySplit (sep s : PyStr) : List PyStr := pySplitGo sep (s.length + 1) s []

/-- Python `sep.join(xs)`. -/
def pyJoin (sep : PyStr) (xs : List PyStr) : PyStr := List.intercalate sep xs

/-- Python `s.replace(pat, repl)` for non-empty `pat`: replace every
non-overlapping occurrence, scanning left to right. -/
def pyReplace (pat repl s : PyStr) : PyStr := pyJoin repl (pySplit pat s)

/-- Python `s.startswith(pre)`. -/
def pyStartsWith (pre s : PyStr) : Bool := List.isPrefixOf pre s

/-- Python substring test `sub in s`. -/
def pyContains (s sub : PyStr) : Bool :=
  match s with
  | [] => sub.isEmpty
  | _ :: rest => sub.isPrefixOf s || pyContains rest sub

/-- Python `s.lower()`. -/
def pyLower (s : PyStr) : PyStr := s.map Char.toLower

/-- Python `s.endswith(suf)`. -/
def pyEndsWith (suf s : PyStr) : Bool := List.isSuffixOf suf s

/-- The newsletter record produced by both composers
(cli.py lines 158-163 / 514-519, app.py lines 239-244). -/
structure Newsletter where
  headline : PyStr
  introduction : PyStr
  sections : List PyStr
  cta : PyStr
deriving Repr, DecidableEq

/-- The fixed call-to-action literal of the fallback composer (cli.py line 513). -/
def fallbackCta : PyStr :=
  "Read the full article for comprehensive details and stay informed about the latest developments in this important story.".toList

/-- Fixed sentence appended after an extracted summary (cli.py line 482). -/
def introSuffix : PyStr :=
  " This article provides comprehensive coverage of the topic with detailed analysis and insights that are relevant to our readers.".toList

/-- Fixed generic introduction used when no summary line is present (cli.py line 484). -/
def genericIntro : PyStr :=
  "This article covers important developments and provides valuable insights on current events and trends that are relevant to our audience.".toList

/-- The two tagged-header extraction blocks of `create_fallback_newsletter`
(cli.py lines 468-472 for `"Title: "` and 477-480 for `"Summary: "`):
if `content` starts with the tag, return the first line with every
occurrence of the tag removed and stripped, together with the content with
its first two lines dropped; otherwise return `""` and the content unchanged. -/
def extractTagged (tag content : PyStr) : PyStr × PyStr :=
  if pyStartsWith tag content then
    let line := (pySplitNl content).headD []
    (pyStrip (pyReplace tag [] line),
     pyJoin "\n".toList ((pySplitNl content).drop 2))
  else ([], content)

/-- The sentence-grouping loop of `create_fallback_newsletter`
(cli.py lines 492-499): state is the pending sentences, the current
section accumulator and the sections collected so far; returns the final
sections list together with the leftover accumulator. -/
def groupSentences : List PyStr → PyStr → List PyStr → List PyStr × PyStr
  | [], cur, secs => (secs, cur)
  | s :: rest, cur, secs =>
    if cur.length < 200 then
      groupSentences rest (cur ++ (if cur ≠ [] then " ".toList ++ s else s)) secs
    else
      groupSentences rest s (if cur ≠ [] then secs ++ [pyStrip cur] else secs)

/-- The padding `while` loop of `create_fallback_newsletter` (cli.py lines
503-508). Each loop iteration either appends one section or breaks, and the
guard requires fewer than two sections, so the source loop performs at most
two iterations; fuel 2 therefore reproduces it exactly. -/
def padSections (fuel : Nat) (sentences secs : List PyStr) : List PyStr :=
  match fuel with
  | 0 => secs
  | fuel + 1 =>
    if secs.length < 2 ∧ sentences ≠ [] then
      let joined := pyJoin " ".toList secs
      let remaining := sentences.filter (fun s => !(pyContains joined s))
      match remaining with
      | [] => secs
      | r :: _ => padSections fuel sentences (secs ++ [r])
    else secs

/-- Section construction of `create_fallback_newsletter` (cli.py lines
486-510): paragraphs longer than 80 characters, or, when fewer than two
qualify, sentences longer than 60 characters greedily grouped into
roughly-200-character sections, padded to two sections when possible. -/
def fallbackSections (content : PyStr) : List PyStr :=
  let paragraphs := ((pySplit "\n\n".toList content).map pyStrip).filter
    (fun p => p.length > 80)
  if paragraphs.length < 2 then
    let sentences := ((pySplitDot content).map pyStrip).filter
      (fun s => s.length > 60)
    let st := groupSentences sentences [] []
    let secs := if st.2 ≠ [] then st.1 ++ [pyStrip st.2] else st.1
    padSections 2 sentences secs
  else paragraphs.take 3

/-- Final assembly of `create_fallback_newsletter` (cli.py lines 474,
481-484, 486-519), given the extracted raw title and summary and the
remaining content. -/
def fallbackAfterSummary (title0 summary content2 : PyStr) : Newsletter :=
  let title := if title0 = [] then "Newsletter".toList else title0
  let introduction :=
    if summary ≠ [] then summary ++ introSuffix else genericIntro
  let sections := fallbackSections content2
  ⟨title, introduction, sections.take 3, fallbackCta⟩

/-- `create_fallback_newsletter` after the `"Title: "` extraction step
(cli.py lines 476-519). -/
def fallbackAfterTitle (title0 content1 : PyStr) : Newsletter :=
  let p := extractTagged "Summary: ".toList content1
  fallbackAfterSummary title0 p.1 p.2

/-- `create_fallback_newsletter` (cli.py lines 465-519). -/
def create_fallback_newsletter (content : PyStr) : Newsletter :=
  let p := extractTagged "Title: ".toList content
  fallbackAfterTitle p.1 p.2

/-- The non-empty lines of the content
(`[line for line in content.split('\n') if line.strip()]`,
cli.py line 131 and app.py lines 147/190). -/
def contentLines (content : PyStr) : List PyStr :=
  (pySplitNl content).filter (fun l => !(pyStrip l).isEmpty)

/-- Section chunking shared by both model paths (cli.py lines 130-136,
app.py lines 189-195): `chunk_size = max(1, len(lines) // 3)` and chunk
`i ∈ {0,1,2}` is `'\n'.join(lines[i*chunk_size:(i+1)*chunk_size])`. -/
def sectionChunks (content : PyStr) : List PyStr :=
  let lines := contentLines content
  let chunkSize := max 1 (lines.length / 3)
  (List.range 3).map (fun i =>
    pyJoin "\n".toList ((lines.drop (i * chunkSize)).take chunkSize))

/-- Post-processing applied to every generated continuation in both model
paths: `.replace('\n', ' ').strip()` (cli.py lines 122/129/145/153,
app.py lines 181/188/204/212). -/
def cleanGen (s : PyStr) : PyStr :=
  pyStrip (s.map (fun c => if c = '\n' then ' ' else c))

/-- Second cleanup pass of the service path, app.py lines 215-218:
`x.split('\n')[0].strip() if x else ""`. -/
def firstLineStrip (s : PyStr) : PyStr :=
  if s = [] then [] else pyStrip ((pySplitNl s).headD [])

/-- The `missing_parts` validation of the service path (app.py lines
221-229): title absent or trimmed shorter than 5, introduction absent or
trimmed shorter than 10, sections list empty, or no section trimmed longer
than 20 characters. -/
def missingParts (title introduction : PyStr) (sections : List PyStr) :
    List PyStr :=
  (if title = [] ∨ (pyStrip title).length < 5 then ["title".toList] else []) ++
  (if introduction = [] ∨ (pyStrip introduction).length < 10 then
    ["introduction".toList] else []) ++
  (if sections = [] ∨ sections.length < 1 then ["sections".toList]
   else if ¬ (sections.any (fun s => (pyStrip s).length > 20)) then
    ["valid sections".toList]
   else [])

/-- Service-path cleanup, validation and assembly (app.py lines 214-244),
taking the four per-call cleaned values: the strict composer raises a
composition error naming the missing parts, or returns the newsletter. -/
def appValidateAssemble (title introduction : PyStr) (sections : List PyStr)
    (cta : PyStr) : Except PyStr Newsletter :=
  let title := firstLineStrip title
  let introduction := firstLineStrip introduction
  let sections := (sections.filter (fun s => s ≠ [] ∧ pyStrip s ≠ [])).map
    (fun s => pyStrip ((pySplitNl s).headD []))
  let cta := firstLineStrip cta
  let missing := missingParts title introduction sections
  if missing ≠ [] then
    Except.error ("Local model generation failed to produce: ".toList ++
      pyJoin ", ".toList missing)
  else Except.ok ⟨title, introduction, sections, cta⟩

/-- Service path applied to the four raw model continuations: per-call
cleanup (app.py lines 181, 188, 204, 212) followed by validation. -/
def appProcessOutputs (titleRaw introRaw : PyStr) (sectionRaws : List PyStr)
    (ctaRaw : PyStr) : Except PyStr Newsletter :=
  appValidateAssemble (cleanGen titleRaw) (cleanGen introRaw)
    (sectionRaws.map cleanGen) (cleanGen ctaRaw)

/-- CLI-path final check and assembly (cli.py lines 154-163): fall back
when the title or introduction is empty or every section is empty,
otherwise return the model-produced newsletter unchanged. -/
def cliAssembleOrFallback (content title introduction : PyStr)
    (sections : List PyStr) (cta : PyStr) : Newsletter :=
  if title = [] ∨ introduction = [] ∨ ¬ (sections.any (fun s => s ≠ [])) then
    create_fallback_newsletter content
  else ⟨title, introduction, sections, cta⟩

/-- CLI path applied to the four raw model continuations: per-call cleanup
(cli.py lines 122, 129, 145, 153) followed by the emptiness check. -/
def cliProcessOutputs (content titleRaw introRaw : PyStr)
    (sectionRaws : List PyStr) (ctaRaw : PyStr) : Newsletter :=
  cliAssembleOrFallback content (cleanGen titleRaw) (cleanGen introRaw)
    (sectionRaws.map cleanGen) (cleanGen ctaRaw)

/-- CLI title prompt (cli.py lines 117-120). -/
def cliTitlePrompt (content : PyStr) : PyStr :=
  "Write a catchy newsletter headline in one line based on this below article:\n".toList ++
  content.take 3500 ++ "\n".toList

/-- CLI introduction prompt (cli.py lines 124-127). -/
def cliIntroPrompt (audience content : PyStr) : PyStr :=
  "Write a short, engaging introduction (2-3 sentences) for a newsletter for a ".toList ++
  audience ++ " audience. Here is the article:\n".toList ++
  content.take 3500 ++ "\n".toList

/-- CLI section prompt (cli.py lines 140-143). -/
def cliSectionPrompt (audience chunk : PyStr) : PyStr :=
  "Write a detailed, informative newsletter section for a ".toList ++
  audience ++ " audience. Here is the relevant content:\n".toList ++
  chunk.take 800 ++ "\n".toList

/-- CLI call-to-action prompt (cli.py lines 148-151), built from the
cleaned title. -/
def cliCtaPrompt (audience title : PyStr) : PyStr :=
  "Write a compelling call to action for a newsletter for a ".toList ++
  audience ++ " audience. Here is the article title: ".toList ++
  title ++ "\n".toList

/-- Service title prompt, default-model branch (app.py lines 176-179). -/
def appTitlePrompt (content : PyStr) : PyStr :=
  "Article: ".toList ++ content.take 1000 ++
  "\n\nBased on the given content give 4-9 words of Headline for newsletter: ".toList

/-- Service introduction prompt (app.py lines 183-186). -/
def appIntroPrompt (content : PyStr) : PyStr :=
  "Article: ".toList ++ content.take 1000 ++
  "\n\nIntroduction: This article covers ".toList

/-- Service section prompt for the chunk at index `i` (app.py lines
199-202). -/
def appSectionPrompt (i : Nat) (chunk : PyStr) : PyStr :=
  "Content: ".toList ++ chunk.take 500 ++ "\n\nSection ".toList ++
  (toString (i + 1)).toList ++ ": ".toList

/-- Service call-to-action prompt (app.py lines 207-210), built from the
cleaned title. -/
def appCtaPrompt (title : PyStr) : PyStr :=
  "Title: ".toList ++ title ++ "\n\nCall to Action: ".toList

/-- Run the generation oracle over a list of prompts in order, collecting
the raw continuations and propagating the first raised error (the section
loops of cli.py lines 138-146 and app.py lines 197-205). -/
def genRaws (gen : PyStr → Except PyStr PyStr) :
    List PyStr → Except PyStr (List PyStr)
  | [] => Except.ok []
  | p :: ps =>
    match gen p with
    | Except.error e => Except.error e
    | Except.ok r =>
      match genRaws gen ps with
      | Except.error e => Except.error e
      | Except.ok rs => Except.ok (r :: rs)

/-- The body of `generate_newsletter_hf` in cli.py (lines 108-163), with
the text-generation capability abstracted as the oracle `gen`: four
sequential generation calls, per-call cleanup, then the emptiness check
against the fallback. An oracle error models a raised exception. -/
def cliGenerateHFCore (gen : PyStr → Except PyStr PyStr)
    (content audience : PyStr) : Except PyStr Newsletter :=
  match gen (cliTitlePrompt content) with
  | Except.error e => Except.error e
  | Except.ok titleRaw =>
    match gen (cliIntroPrompt audience content) with
    | Except.error e => Except.error e
    | Except.ok introRaw =>
      match genRaws gen ((sectionChunks content).map
          (fun chunk => cliSectionPrompt audience chunk)) with
      | Except.error e => Except.error e
      | Except.ok sectionRaws =>
        match gen (cliCtaPrompt audience (cleanGen titleRaw)) with
        | Except.error e => Except.error e
        | Except.ok ctaRaw =>
          Except.ok (cliProcessOutputs content titleRaw introRaw
            sectionRaws ctaRaw)

/-- `generate_newsletter_hf` of cli.py (lines 108-167): any exception from
the model calls is caught and replaced by the fallback newsletter. -/
def cliGenerateHF (gen : PyStr → Except PyStr PyStr)
    (content audience : PyStr) : Newsletter :=
  match cliGenerateHFCore gen content audience with
  | Except.error _ => create_fallback_newsletter content
  | Except.ok nl => nl

/-- `generate_newsletter_hf` of app.py (lines 124-247), default-model
branch: four sequential generation calls, per-call cleanup, second cleanup
pass and validation; errors propagate to the caller (the final
`except ... raise`). -/
def appGenerateHFCore (gen : PyStr → Except PyStr PyStr)
    (content : PyStr) : Except PyStr Newsletter :=
  match gen (appTitlePrompt content) with
  | Except.error e => Except.error e
  | Except.ok titleRaw =>
    match gen (appIntroPrompt content) with
    | Except.error e => Except.error e
    | Except.ok introRaw =>
      match genRaws gen ((sectionChunks content).enum.map
          (fun ic => appSectionPrompt ic.1 ic.2)) with
      | Except.error e => Except.error e
      | Except.ok sectionRaws =>
        match gen (appCtaPrompt (cleanGen titleRaw)) with
        | Except.error e => Except.error e
        | Except.ok ctaRaw =>
          appProcessOutputs titleRaw introRaw sectionRaws ctaRaw

/-- `generate_newsletter` of cli.py (lines 169-173): reject empty or
too-short content before any model interaction. -/
def cliGenerate_newsletter (gen : PyStr → Except PyStr PyStr)
    (content audience : PyStr) : Option Newsletter :=
  if content = [] ∨ (pyStrip content).length < 50 then none
  else some (cliGenerateHF gen content audience)

/-- `generate_newsletter` of app.py (lines 249-253): reject empty or
too-short content before any model interaction; otherwise the strict model
path runs and may raise. -/
def appGenerate_newsletter (gen : PyStr → Except PyStr PyStr)
    (content : PyStr) : Except PyStr (Option Newsletter) :=
  if content = [] ∨ (pyStrip content).length < 50 then Except.ok none
  else (appGenerateHFCore gen content).map some

/-- `allowed_file` of app.py (lines 36-37): the name contains a dot and
the text after the last dot, lowercased, is `pdf` or `docx`. -/
def allowed_file (filename : PyStr) : Bool :=
  pyContains filename ".".toList &&
  (pyLower ((filename.reverse.takeWhile (fun c => c ≠ '.')).reverse) =
      "pdf".toList ∨
   pyLower ((filename.reverse.takeWhile (fun c => c ≠ '.')).reverse) =
      "docx".toList)

/-- HTTP outcome of the file-upload endpoint. -/
inductive ApiResp where
  | ok (nl : Newsletter)
  | clientError (msg : PyStr)
  | serverError (msg : PyStr)
deriving Repr, DecidableEq

/-- Map the body outcome to a response: a raised error is caught by the
outer handler and becomes a 500 response (app.py lines 331-332). -/
def respOf : Except PyStr ApiResp → ApiResp
  | Except.ok resp => resp
  | Except.error e => ApiResp.serverError e

/-- `generate_from_file` of app.py (lines 283-332), with the filesystem
modelled as the list of existing paths. `origName` is the uploaded file
name, `secName` the result of the external `secure_filename` sanitizer,
`extractResult` the outcome of the extraction helper (which catches its
own errors and returns an absent result), and `genOutcome` the outcome of
`generate_newsletter` (absent result, newsletter, or raised error). The
upload is saved under the upload folder, the body runs inside
`try/finally`, the `finally` block deletes the file if it exists, and any
raised error is then mapped to a 500 response. -/
def generateFromFile (fs : List PyStr) (hasFile : Bool)
    (origName secName : PyStr) (extractResult : Option PyStr)
    (genOutcome : Except PyStr (Option Newsletter)) : ApiResp × List PyStr :=
  if ¬ hasFile then (ApiResp.clientError "No file provided".toList, fs)
  else if origName = [] then
    (ApiResp.clientError "No file selected".toList, fs)
  else if ¬ allowed_file origName then
    (ApiResp.clientError
      "Invalid file type. Only PDF and DOCX files are allowed".toList, fs)
  else
    let filepath := "uploads/".toList ++ secName
    let fsSaved := filepath :: fs
    let body : Except PyStr ApiResp :=
      if pyEndsWith ".pdf".toList (pyLower secName) ∨
         pyEndsWith ".docx".toList (pyLower secName) then
        match extractResult with
        | none => Except.ok (ApiResp.clientError
            "Could not extract content from file".toList)
        | some _ =>
          match genOutcome with
          | Except.error e => Except.error e
          | Except.ok none => Except.ok (ApiResp.serverError
              "Failed to generate newsletter".toList)
          | Except.ok (some nl) => Except.ok (ApiResp.ok nl)
      else Except.ok (ApiResp.clientError "Unsupported file type".toList)
    let fsCleaned := fsSaved.filter (fun p => p ≠ filepath)
    (respOf body, fsCleaned)

/-! ### Helper lemmas -/

/-- Dropping a satisfying prefix cannot change the count of failing
elements. -/
theorem countP_not_dropWhile (p : Char → Bool) (l : PyStr) :
    List.countP (fun c => !(p c)) (l.dropWhile p) =
      List.countP (fun c => !(p c)) l := by
  conv_rhs => rw [← List.takeWhile_append_dropWhile p l]
  rw [List.countP_append]
  have h0 : List.countP (fun c => !(p c)) (l.takeWhile p) = 0 :=
    List.countP_eq_zero.mpr (fun a ha => by
      simp [List.mem_takeWhile_imp ha])
  omega

/-- `strip` removes only whitespace, so the result is at least as long as
the number of non-whitespace characters. -/
theorem countP_le_length_pyStrip (s : PyStr) :
    List.countP (fun c => !(isPySpace c)) s ≤ (pyStrip s).length := by
  unfold pyStrip
  rw [List.rdropWhile]
  calc List.countP (fun c => !(isPySpace c)) s
      = List.countP (fun c => !(isPySpace c)) (s.dropWhile isPySpace) :=
        (countP_not_dropWhile isPySpace s).symm
    _ = List.countP (fun c => !(isPySpace c))
          (s.dropWhile isPySpace).reverse :=
        (List.countP_reverse _ _).symm
    _ = List.countP (fun c => !(isPySpace c))
          ((s.dropWhile isPySpace).reverse.dropWhile isPySpace) :=
        (countP_not_dropWhile isPySpace _).symm
    _ ≤ ((s.dropWhile isPySpace).reverse.dropWhile isPySpace).length :=
        List.countP_le_length _
    _ = ((s.dropWhile isPySpace).reverse.dropWhile isPySpace).reverse.length :=
        (List.length_reverse _).symm

/-- The fallback assembly always yields a non-empty headline. -/
theorem fallbackAfterSummary_headline (t s c : PyStr) :
    (fallbackAfterSummary t s c).headline ≠ [] := by
  unfold fallbackAfterSummary
  by_cases ht : t = [] <;> simp [ht]

/-- The fallback assembly always yields an introduction whose trimmed
length is at least 10. -/
theorem fallbackAfterSummary_intro (t s c : PyStr) :
    10 ≤ (pyStrip (fallbackAfterSummary t s c).introduction).length := by
  unfold fallbackAfterSummary
  by_cases hs : s = []
  · simp only [hs, ne_eq, not_true_eq_false, if_false]
    decide
  · simp only [ne_eq, hs, not_false_eq_true, if_true]
    calc (10 : Nat)
        ≤ List.countP (fun c => !(isPySpace c)) introSuffix := by decide
      _ ≤ List.countP (fun c => !(isPySpace c)) (s ++ introSuffix) := by
          rw [List.countP_append]; omega
      _ ≤ (pyStrip (s ++ introSuffix)).length :=
          countP_le_length_pyStrip _

/-- The fallback assembly yields at most three sections. -/
theorem fallbackAfterSummary_sections (t s c : PyStr) :
    (fallbackAfterSummary t s c).sections.length ≤ 3 := by
  unfold fallbackAfterSummary
  simp [List.length_take]

/-- The fallback assembly always emits the fixed call to action. -/
theorem fallbackAfterSummary_cta (t s c : PyStr) :
    (fallbackAfterSummary t s c).cta = fallbackCta := rfl

/-- `create_fallback_newsletter` is the fallback assembly applied to the
extracted header pieces. -/
theorem create_fallback_eq (content : PyStr) :
    create_fallback_newsletter content =
      fallbackAfterSummary (extractTagged "Title: ".toList content).1
        (extractTagged "Summary: ".toList
          (extractTagged "Title: ".toList content).2).1
        (extractTagged "Summary: ".toList
          (extractTagged "Title: ".toList content).2).2 := rfl

/-! ### Claim theorems -/

/-- The content string of testable property 3 of the spec. -/
def c7content : PyStr :=
  "Title: Markets Rally\n\nSummary: Stocks rose today.\n\nBody text that is definitely longer than eighty characters to qualify as a paragraph section one.\n\nAnother paragraph also exceeding eighty characters so it qualifies as a second section here.".toList

/-- A degenerate accepted content: 50 characters with no long paragraph
and no long sentence. -/
def aContent : PyStr := List.replicate 50 'a'

/-- C1 counterexample: for the 50-character content `"a" * 50` the
fallback composer returns an empty sections list, refuting the claimed
lower bound `1 ≤ len(sections)`. -/
theorem fallback_sections_empty_counterexample :
    50 ≤ aContent.length ∧
    ¬ (1 ≤ (create_fallback_newsletter aContent).sections.length) := by
  decide

/-- C1 (amended): for every input content of length at least 50, the
fallback composer returns a newsletter with a non-empty headline, an
introduction of trimmed length at least 10, at most 3 sections (the
sections list can however be empty, so the claimed lower bound of 1 does
not hold), and the fixed call-to-action literal. -/
theorem fallback_structural_guarantees (content : PyStr)
    (_h : 50 ≤ content.length) :
    (create_fallback_newsletter content).headline ≠ [] ∧
    10 ≤ (pyStrip (create_fallback_newsletter content).introduction).length ∧
    (create_fallback_newsletter content).sections.length ≤ 3 ∧
    (create_fallback_newsletter content).cta = fallbackCta := by
  rw [create_fallback_eq]
  exact ⟨fallbackAfterSummary_headline _ _ _, fallbackAfterSummary_intro _ _ _,
    fallbackAfterSummary_sections _ _ _, fallbackAfterSummary_cta _ _ _⟩

/-- Witness for the amended C1 theorem at the concrete 50-character
content `"a" * 50`. -/
theorem fallback_structural_guarantees_witness :
    50 ≤ aContent.length ∧
    ((create_fallback_newsletter aContent).headline ≠ [] ∧
     10 ≤ (pyStrip (create_fallback_newsletter aContent).introduction).length ∧
     (create_fallback_newsletter aContent).sections.length ≤ 3 ∧
     (create_fallback_newsletter aContent).cta = fallbackCta) :=
  ⟨by decide, fallback_structural_guarantees aContent (by decide)⟩

/-- C7: on the specific `Title:`/`Summary:` content of the spec, the
fallback composer extracts the headline `"Markets Rally"` and an
introduction beginning with `"Stocks rose today."`. -/
theorem fallback_markets_rally :
    (create_fallback_newsletter c7content).headline = "Markets Rally".toList ∧
    pyStartsWith "Stocks rose today.".toList
      (create_fallback_newsletter c7content).introduction = true := by
  decide

/-- C8 counterexample: for the content
`"Title: Top Title: News\n\nBody"` (which begins with a `"Title: "` line
followed by a blank line) the remainder of the first line after the
`"Title: "` marker is `"Top Title: News"`, but the code removes every
occurrence of `"Title: "` from the line and produces the headline
`"Top News"`, refuting the claim that the headline is the remainder of
the line. -/
theorem title_extraction_counterexample :
    pyStartsWith "Title: ".toList
      "Title: Top Title: News\n\nBody".toList = true ∧
    ((pySplitNl "Title: Top Title: News\n\nBody".toList).headD []).drop 7 =
      "Top Title: News".toList ∧
    (create_fallback_newsletter "Title: Top Title: News\n\nBody".toList).headline =
      "Top News".toList ∧
    (create_fallback_newsletter "Title: Top Title: News\n\nBody".toList).headline ≠
      "Top Title: News".toList := by
  decide

/-- C8 (amended): when content begins with a `"Title: "` line, the
headline is that first line with every occurrence of `"Title: "` removed
and then stripped (falling back to the literal `"Newsletter"` when that is
empty), and exactly the first two lines of content (the title line and
whatever line follows it — blank in well-formed input) are removed before
further processing; otherwise the headline is the literal `"Newsletter"`
and content is unchanged. The analogous rule holds for a leading
`"Summary: "` line feeding the introduction. -/
theorem fallback_header_extraction :
    (∀ content : PyStr, pyStartsWith "Title: ".toList content = true →
      create_fallback_newsletter content =
        fallbackAfterTitle
          (pyStrip (pyReplace "Title: ".toList []
            ((pySplitNl content).headD [])))
          (pyJoin "\n".toList ((pySplitNl content).drop 2))) ∧
    (∀ content : PyStr, pyStartsWith "Title: ".toList content = false →
      create_fallback_newsletter content = fallbackAfterTitle [] content ∧
      (create_fallback_newsletter content).headline = "Newsletter".toList) ∧
    (∀ title0 content1 : PyStr,
      pyStartsWith "Summary: ".toList content1 = true →
      fallbackAfterTitle title0 content1 =
        fallbackAfterSummary title0
          (pyStrip (pyReplace "Summary: ".toList []
            ((pySplitNl content1).headD [])))
          (pyJoin "\n".toList ((pySplitNl content1).drop 2))) ∧
    (∀ title0 content1 : PyStr,
      pyStartsWith "Summary: ".toList content1 = false →
      fallbackAfterTitle title0 content1 =
        fallbackAfterSummary title0 [] content1) := by
  refine ⟨fun content h => ?_, fun content h => ?_,
    fun title0 content1 h => ?_, fun title0 content1 h => ?_⟩
  · unfold create_fallback_newsletter extractTagged
    rw [if_pos h]
  · have hne : ¬ (pyStartsWith "Title: ".toList content = true) := by
      rw [h]; exact Bool.false_ne_true
    constructor
    · unfold create_fallback_newsletter extractTagged
      rw [if_neg hne]
    · unfold create_fallback_newsletter extractTagged
      rw [if_neg hne]
      unfold fallbackAfterTitle fallbackAfterSummary
      simp
  · unfold fallbackAfterTitle extractTagged
    rw [if_pos h]
  · have hne : ¬ (pyStartsWith "Summary: ".toList content1 = true) := by
      rw [h]; exact Bool.false_ne_true
    unfold fallbackAfterTitle extractTagged
    rw [if_neg hne]

/-- Witness for the amended C8 theorem, instantiating all four conjuncts
at concrete inputs. -/
theorem fallback_header_extraction_witness :
    (create_fallback_newsletter "Title: Hi\n\nSummary: Yo\n\nrest".toList =
      fallbackAfterTitle
        (pyStrip (pyReplace "Title: ".toList []
          ((pySplitNl "Title: Hi\n\nSummary: Yo\n\nrest".toList).headD [])))
        (pyJoin "\n".toList
          ((pySplitNl "Title: Hi\n\nSummary: Yo\n\nrest".toList).drop 2))) ∧
    (create_fallback_newsletter "plain".toList =
        fallbackAfterTitle [] "plain".toList ∧
      (create_fallback_newsletter "plain".toList).headline =
        "Newsletter".toList) ∧
    (fallbackAfterTitle "Hi".toList "Summary: Yo\n\nrest".toList =
      fallbackAfterSummary "Hi".toList
        (pyStrip (pyReplace "Summary: ".toList []
          ((pySplitNl "Summary: Yo\n\nrest".toList).headD [])))
        (pyJoin "\n".toList
          ((pySplitNl "Summary: Yo\n\nrest".toList).drop 2))) ∧
    (fallbackAfterTitle "Hi".toList "plain".toList =
      fallbackAfterSummary "Hi".toList [] "plain".toList) :=
  ⟨fallback_header_extraction.1 _ (by decide),
   fallback_header_extraction.2.1 _ (by decide),
   fallback_header_extraction.2.2.1 _ _ (by decide),
   fallback_header_extraction.2.2.2 _ _ (by decide)⟩

/-- A constant generation oracle that never raises. -/
def emptyOracle : PyStr → Except PyStr PyStr := fun _ => Except.ok []

/-- C2: both `generate_newsletter` variants return an absent result for
empty or too-short (trimmed length below 50) content without consulting
the generation oracle (the result is `none` for every oracle `gen`), and
proceed to the respective model path when the trimmed length is at
least 50. -/
theorem generate_newsletter_gating (gen : PyStr → Except PyStr PyStr)
    (content audience : PyStr) :
    ((content = [] ∨ (pyStrip content).length < 50) →
      cliGenerate_newsletter gen content audience = none ∧
      appGenerate_newsletter gen content = Except.ok none) ∧
    (50 ≤ (pyStrip content).length →
      cliGenerate_newsletter gen content audience =
        some (cliGenerateHF gen content audience) ∧
      appGenerate_newsletter gen content =
        (appGenerateHFCore gen content).map some) := by
  constructor
  · intro h
    unfold cliGenerate_newsletter appGenerate_newsletter
    rw [if_pos h, if_pos h]
    exact ⟨rfl, rfl⟩
  · intro h
    have hne : ¬ (content = [] ∨ (pyStrip content).length < 50) := by
      rintro (rfl | hlt)
      · exact absurd h (by decide)
      · omega
    unfold cliGenerate_newsletter appGenerate_newsletter
    rw [if_neg hne, if_neg hne]
    exact ⟨rfl, rfl⟩

/-- Witness for C2: the short content `"hi"` is rejected by both variants
and the 60-character content `"b" * 60` reaches the model path. -/
theorem generate_newsletter_gating_witness :
    (cliGenerate_newsletter emptyOracle "hi".toList "business".toList = none ∧
     appGenerate_newsletter emptyOracle "hi".toList = Except.ok none) ∧
    (cliGenerate_newsletter emptyOracle (List.replicate 60 'b')
        "business".toList =
      some (cliGenerateHF emptyOracle (List.replicate 60 'b')
        "business".toList) ∧
     appGenerate_newsletter emptyOracle (List.replicate 60 'b') =
      (appGenerateHFCore emptyOracle (List.replicate 60 'b')).map some) :=
  ⟨(generate_newsletter_gating emptyOracle "hi".toList "business".toList).1
    (by decide),
   (generate_newsletter_gating emptyOracle (List.replicate 60 'b')
      "business".toList).2 (by decide)⟩

/-- C3 counterexample: for content with four non-empty lines
(`"a\nb\nc\nd"`), the chunk size is `max(1, 4 // 3) = 1` and the three
chunks are `"a"`, `"b"`, `"c"`: the fourth non-empty line `"d"` appears in
no chunk, refuting the claim that the last chunk absorbs the remainder and
no non-empty line is lost. -/
theorem chunking_drops_lines_counterexample :
    contentLines "a\nb\nc\nd".toList =
      ["a".toList, "b".toList, "c".toList, "d".toList] ∧
    sectionChunks "a\nb\nc\nd".toList =
      ["a".toList, "b".toList, "c".toList] ∧
    ∀ chunk ∈ sectionChunks "a\nb\nc\nd".toList,
      pyContains chunk "d".toList = false := by
  decide

/-- C3 (amended): chunk `i` is `lines[i*k : (i+1)*k]` with
`k = max(1, len(lines) // 3)`; lines beyond index `3*k - 1` are dropped,
not absorbed. For content with exactly 9 non-empty lines this yields three
chunks of exactly 3 lines whose concatenation is the full line list, the
third chunk being lines 7-9. -/
theorem chunking_nine_lines (content : PyStr)
    (h : (contentLines content).length = 9) :
    sectionChunks content =
      [pyJoin "\n".toList ((contentLines content).take 3),
       pyJoin "\n".toList (((contentLines content).drop 3).take 3),
       pyJoin "\n".toList (((contentLines content).drop 6).take 3)] ∧
    ((contentLines content).take 3).length = 3 ∧
    (((contentLines content).drop 3).take 3).length = 3 ∧
    (((contentLines content).drop 6).take 3).length = 3 ∧
    ((contentLines content).drop 6).take 3 = (contentLines content).drop 6 ∧
    (contentLines content).take 3 ++ ((contentLines content).drop 3).take 3 ++
      ((contentLines content).drop 6).take 3 = contentLines content := by
  have hfull : ((contentLines content).drop 6).take 3 =
      (contentLines content).drop 6 :=
    List.take_of_length_le (by simp [h])
  refine ⟨?_, ?_, ?_, ?_, hfull, ?_⟩
  · simp only [sectionChunks, h]
    rfl
  · simp [h]
  · simp [h]
  · simp [h]
  · rw [hfull]
    have h36 : ((contentLines content).drop 3).drop 3 =
        (contentLines content).drop 6 := by
      rw [List.drop_drop]
    rw [List.append_assoc, ← h36, List.take_append_drop,
      List.take_append_drop]

/-- Witness for the amended C3 theorem at a concrete nine-line content. -/
theorem chunking_nine_lines_witness :
    sectionChunks "1\n2\n3\n4\n5\n6\n7\n8\n9".toList =
      [pyJoin "\n".toList
        ((contentLines "1\n2\n3\n4\n5\n6\n7\n8\n9".toList).take 3),
       pyJoin "\n".toList
        (((contentLines "1\n2\n3\n4\n5\n6\n7\n8\n9".toList).drop 3).take 3),
       pyJoin "\n".toList
        (((contentLines "1\n2\n3\n4\n5\n6\n7\n8\n9".toList).drop 6).take 3)] ∧
    ((contentLines "1\n2\n3\n4\n5\n6\n7\n8\n9".toList).take 3).length = 3 ∧
    (((contentLines "1\n2\n3\n4\n5\n6\n7\n8\n9".toList).drop 3).take 3).length
      = 3 ∧
    (((contentLines "1\n2\n3\n4\n5\n6\n7\n8\n9".toList).drop 6).take 3).length
      = 3 ∧
    ((contentLines "1\n2\n3\n4\n5\n6\n7\n8\n9".toList).drop 6).take 3 =
      (contentLines "1\n2\n3\n4\n5\n6\n7\n8\n9".toList).drop 6 ∧
    (contentLines "1\n2\n3\n4\n5\n6\n7\n8\n9".toList).take 3 ++
      ((contentLines "1\n2\n3\n4\n5\n6\n7\n8\n9".toList).drop 3).take 3 ++
      ((contentLines "1\n2\n3\n4\n5\n6\n7\n8\n9".toList).drop 6).take 3 =
      contentLines "1\n2\n3\n4\n5\n6\n7\n8\n9".toList :=
  chunking_nine_lines "1\n2\n3\n4\n5\n6\n7\n8\n9".toList (by decide)

/-- Membership of `"title"` in the missing-parts list characterizes the
title condition of the strict validation. -/
theorem mem_missingParts_title (t i : PyStr) (ss : List PyStr) :
    "title".toList ∈ missingParts t i ss ↔
      (t = [] ∨ (pyStrip t).length < 5) := by
  have d1 : "title".toList ≠ "introduction".toList := by decide
  have d2 : "title".toList ≠ "sections".toList := by decide
  have d3 : "title".toList ≠ "valid sections".toList := by decide
  unfold missingParts
  split_ifs <;> simp_all [List.mem_append]

/-- Membership of `"introduction"` in the missing-parts list characterizes
the introduction condition of the strict validation. -/
theorem mem_missingParts_intro (t i : PyStr) (ss : List PyStr) :
    "introduction".toList ∈ missingParts t i ss ↔
      (i = [] ∨ (pyStrip i).length < 10) := by
  have d1 : "introduction".toList ≠ "title".toList := by decide
  have d2 : "introduction".toList ≠ "sections".toList := by decide
  have d3 : "introduction".toList ≠ "valid sections".toList := by decide
  unfold missingParts
  split_ifs <;> simp_all [List.mem_append]

/-- Membership of `"sections"` in the missing-parts list characterizes the
empty-sections condition of the strict validation. -/
theorem mem_missingParts_sections (t i : PyStr) (ss : List PyStr) :
    "sections".toList ∈ missingParts t i ss ↔
      (ss = [] ∨ ss.length < 1) := by
  have d1 : "sections".toList ≠ "title".toList := by decide
  have d2 : "sections".toList ≠ "introduction".toList := by decide
  have d3 : "sections".toList ≠ "valid sections".toList := by decide
  unfold missingParts
  split_ifs <;> simp_all [List.mem_append]

/-- Membership of `"valid sections"` in the missing-parts list
characterizes the no-long-section condition of the strict validation. -/
theorem mem_missingParts_valid (t i : PyStr) (ss : List PyStr) :
    "valid sections".toList ∈ missingParts t i ss ↔
      (¬ (ss = [] ∨ ss.length < 1) ∧
       ¬ (ss.any (fun s => (pyStrip s).length > 20) = true)) := by
  have d1 : "valid sections".toList ≠ "title".toList := by decide
  have d2 : "valid sections".toList ≠ "introduction".toList := by decide
  have d3 : "valid sections".toList ≠ "sections".toList := by decide
  unfold missingParts
  split_ifs <;> simp_all [List.mem_append]

/-- With an empty introduction, the missing-parts list is non-empty. -/
theorem missingParts_ne_nil_of_intro_nil (t : PyStr) (ss : List PyStr) :
    missingParts t [] ss ≠ [] := by
  intro hc
  have hmem : "introduction".toList ∈ missingParts t [] ss :=
    (mem_missingParts_intro t [] ss).mpr (Or.inl rfl)
  rw [hc] at hmem
  exact absurd hmem (List.not_mem_nil _)

/-- With an empty introduction the strict cleanup-and-validate step
returns an error. -/
theorem appValidateAssemble_intro_nil (t : PyStr) (ss : List PyStr)
    (c : PyStr) : (appValidateAssemble t [] ss c).isOk = false := by
  unfold appValidateAssemble
  have h0 : firstLineStrip [] = [] := rfl
  simp only [h0]
  rw [if_pos (missingParts_ne_nil_of_intro_nil _ _)]
  rfl

/-- C4 (amended): for the same model result whose cleaned introduction is
empty (a validation failure), the strict service composer returns a raised
composition error while the lenient CLI composer substitutes the fallback
newsletter, and it likewise substitutes the fallback for any error raised
by the model call. The substituted fallback always has a non-empty
headline and an introduction of trimmed length at least 10, but — contrary
to the original claim — it need not satisfy the full validation predicate,
because its sections list can be empty. -/
theorem strict_raises_lenient_falls_back (content titleRaw introRaw : PyStr)
    (sectionRaws : List PyStr) (ctaRaw : PyStr)
    (h : cleanGen introRaw = []) :
    (appProcessOutputs titleRaw introRaw sectionRaws ctaRaw).isOk = false ∧
    cliProcessOutputs content titleRaw introRaw sectionRaws ctaRaw =
      create_fallback_newsletter content ∧
    (∀ e audience : PyStr,
      cliGenerateHF (fun _ => Except.error e) content audience =
        create_fallback_newsletter content) ∧
    (create_fallback_newsletter content).headline ≠ [] ∧
    10 ≤ (pyStrip (create_fallback_newsletter content).introduction).length := by
  refine ⟨?_, ?_, fun e audience => rfl, ?_, ?_⟩
  · unfold appProcessOutputs
    rw [h]
    exact appValidateAssemble_intro_nil _ _ _
  · unfold cliProcessOutputs
    rw [h]
    unfold cliAssembleOrFallback
    rw [if_pos (Or.inr (Or.inl rfl))]
  · rw [create_fallback_eq]
    exact fallbackAfterSummary_headline _ _ _
  · rw [create_fallback_eq]
    exact fallbackAfterSummary_intro _ _ _

/-- Witness for the amended C4 theorem at a concrete empty model result
over the 50-character content. -/
theorem strict_raises_lenient_falls_back_witness :
    cleanGen ([] : PyStr) = [] ∧
    ((appProcessOutputs [] [] [[], [], []] []).isOk = false ∧
     cliProcessOutputs aContent [] [] [[], [], []] [] =
       create_fallback_newsletter aContent ∧
     (∀ e audience : PyStr,
       cliGenerateHF (fun _ => Except.error e) aContent audience =
         create_fallback_newsletter aContent) ∧
     (create_fallback_newsletter aContent).headline ≠ [] ∧
     10 ≤ (pyStrip (create_fallback_newsletter aContent).introduction).length) :=
  ⟨rfl, strict_raises_lenient_falls_back aContent [] [] [[], [], []] [] rfl⟩

/-- C4 counterexample: for the accepted content `"a" * 50` and a model
result with empty introduction, the lenient composer does return the
fallback newsletter, but that newsletter is not valid: the strict
validation predicate flags it (its sections list is empty), refuting the
clause "which is itself valid". -/
theorem lenient_fallback_invalid_counterexample :
    cleanGen ([] : PyStr) = [] ∧
    cliProcessOutputs aContent [] [] [[], [], []] [] =
      create_fallback_newsletter aContent ∧
    missingParts (create_fallback_newsletter aContent).headline
      (create_fallback_newsletter aContent).introduction
      (create_fallback_newsletter aContent).sections ≠ [] := by
  decide

/-- C5: the strict validation behaves exactly at the claimed boundaries: a
title of trimmed length 5 is not flagged while 4 is flagged as
`"title"`; an introduction of trimmed length 10 passes while 9 is flagged
as `"introduction"`; an empty sections list is flagged as `"sections"`;
and a non-empty sections list in which no section exceeds 20 trimmed
characters is flagged as `"valid sections"`. -/
theorem validation_boundaries :
    (∀ t i ss, (pyStrip t).length = 5 →
      "title".toList ∉ missingParts t i ss) ∧
    (∀ t i ss, (pyStrip t).length = 4 →
      "title".toList ∈ missingParts t i ss) ∧
    (∀ t i ss, (pyStrip i).length = 10 →
      "introduction".toList ∉ missingParts t i ss) ∧
    (∀ t i ss, (pyStrip i).length = 9 →
      "introduction".toList ∈ missingParts t i ss) ∧
    (∀ t i, "sections".toList ∈ missingParts t i []) ∧
    (∀ t i ss, ss ≠ [] → (∀ s ∈ ss, (pyStrip s).length ≤ 20) →
      "valid sections".toList ∈ missingParts t i ss) := by
  refine ⟨fun t i ss h => ?_, fun t i ss h => ?_, fun t i ss h => ?_,
    fun t i ss h => ?_, fun t i => ?_, fun t i ss hne hall => ?_⟩
  · rw [mem_missingParts_title]
    rintro (rfl | hlt)
    · exact absurd h (by decide)
    · omega
  · exact (mem_missingParts_title t i ss).mpr (Or.inr (by omega))
  · rw [mem_missingParts_intro]
    rintro (rfl | hlt)
    · exact absurd h (by decide)
    · omega
  · exact (mem_missingParts_intro t i ss).mpr (Or.inr (by omega))
  · exact (mem_missingParts_sections t i []).mpr (Or.inl rfl)
  · rw [mem_missingParts_valid]
    refine ⟨?_, ?_⟩
    · rintro (rfl | hlen)
      · exact hne rfl
      · have hpos : 0 < ss.length := List.length_pos.mpr hne
        omega
    · rw [List.any_eq_true]
      rintro ⟨s, hs, hgt⟩
      have hle := hall s hs
      simp only [gt_iff_lt, decide_eq_true_eq] at hgt
      omega

/-- Witness for C5, instantiating every boundary conjunct at a concrete
input. -/
theorem validation_boundaries_witness :
    "title".toList ∉ missingParts "abcde".toList [] [] ∧
    "title".toList ∈ missingParts "abcd".toList [] [] ∧
    "introduction".toList ∉ missingParts [] "abcdefghij".toList [] ∧
    "introduction".toList ∈ missingParts [] "abcdefghi".toList [] ∧
    "sections".toList ∈ missingParts [] [] [] ∧
    "valid sections".toList ∈ missingParts [] [] ["short".toList] :=
  ⟨validation_boundaries.1 _ _ _ (by decide),
   validation_boundaries.2.1 _ _ _ (by decide),
   validation_boundaries.2.2.1 _ _ _ (by decide),
   validation_boundaries.2.2.2.1 _ _ _ (by decide),
   validation_boundaries.2.2.2.2.1 _ _,
   validation_boundaries.2.2.2.2.2 _ _ _ (by decide) (by decide)⟩

/-- Running the oracle over a prompt list succeeds with the mapped
continuations when the oracle never raises. -/
theorem genRaws_ok (g : PyStr → PyStr) (ps : List PyStr) :
    genRaws (fun p => Except.ok (g p)) ps = Except.ok (ps.map g) := by
  induction ps with
  | nil => rfl
  | cons p ps ih => simp [genRaws, ih]

/-- A constant non-raising oracle whose continuation is the short text
`"Hi"`. -/
def hiOracle : PyStr → Except PyStr PyStr := fun _ => Except.ok "Hi".toList

/-- C6 counterexample: with a model that answers `"Hi"` to every prompt
over the accepted content `"a" * 50`, the lenient composer returns the
model-produced newsletter even though it violates the strict validation
predicate (title below 5, introduction below 10, no section above 20),
refuting the claim that the strict thresholds are applied before a
model-produced newsletter is returned. -/
theorem lenient_no_threshold_counterexample :
    cliGenerateHF hiOracle aContent "business".toList =
      ⟨"Hi".toList, "Hi".toList,
       ["Hi".toList, "Hi".toList, "Hi".toList], "Hi".toList⟩ ∧
    missingParts "Hi".toList "Hi".toList
      ["Hi".toList, "Hi".toList, "Hi".toList] ≠ [] ∧
    cliGenerateHF hiOracle aContent "business".toList ≠
      create_fallback_newsletter aContent := by
  decide

/-- C6 (amended): the lenient CLI path checks only non-emptiness of the
cleaned title, the cleaned introduction, and at least one cleaned section;
when those hold the cleaned model result is returned unchanged (no
5/10/20 thresholds are applied), and otherwise the fallback newsletter is
substituted. -/
theorem lenient_emptiness_check (content titleRaw introRaw : PyStr)
    (sectionRaws : List PyStr) (ctaRaw : PyStr) :
    (¬ (cleanGen titleRaw = [] ∨ cleanGen introRaw = [] ∨
        ¬ ((sectionRaws.map cleanGen).any (fun s => s ≠ []))) →
      cliProcessOutputs content titleRaw introRaw sectionRaws ctaRaw =
        ⟨cleanGen titleRaw, cleanGen introRaw, sectionRaws.map cleanGen,
         cleanGen ctaRaw⟩) ∧
    ((cleanGen titleRaw = [] ∨ cleanGen introRaw = [] ∨
        ¬ ((sectionRaws.map cleanGen).any (fun s => s ≠ []))) →
      cliProcessOutputs content titleRaw introRaw sectionRaws ctaRaw =
        create_fallback_newsletter content) := by
  constructor <;> intro h <;> unfold cliProcessOutputs cliAssembleOrFallback
  · rw [if_neg h]
  · rw [if_pos h]

/-- Witness for the amended C6 theorem: a passing and a failing emptiness
check at concrete model results. -/
theorem lenient_emptiness_check_witness :
    cliProcessOutputs aContent "Hi".toList "Hi".toList
        ["Hi".toList] "Hi".toList =
      ⟨cleanGen "Hi".toList, cleanGen "Hi".toList,
       ["Hi".toList].map cleanGen, cleanGen "Hi".toList⟩ ∧
    cliProcessOutputs aContent [] [] [[]] [] =
      create_fallback_newsletter aContent :=
  ⟨(lenient_emptiness_check aContent "Hi".toList "Hi".toList
      ["Hi".toList] "Hi".toList).1 (by decide),
   (lenient_emptiness_check aContent [] [] [[]] []).2 (by decide)⟩

/-- C10: whenever the CLI model path returns a model-produced newsletter
(the oracle never raises and the emptiness check passes), the sections
list is exactly the cleaned per-chunk continuations in chunk order — a map
over the three chunks with no filtering, so empty per-chunk results are
kept — and it has exactly 3 elements. -/
theorem lenient_sections_exactly_three (g : PyStr → PyStr)
    (content audience : PyStr)
    (h : ¬ (cleanGen (g (cliTitlePrompt content)) = [] ∨
            cleanGen (g (cliIntroPrompt audience content)) = [] ∨
            ¬ (((sectionChunks content).map
                (fun ch => cleanGen (g (cliSectionPrompt audience ch)))).any
               (fun s => s ≠ [])))) :
    (cliGenerateHF (fun p => Except.ok (g p)) content audience).sections =
      (sectionChunks content).map
        (fun ch => cleanGen (g (cliSectionPrompt audience ch))) ∧
    ((sectionChunks content).map
        (fun ch => cleanGen (g (cliSectionPrompt audience ch)))).length = 3 := by
  have hmap : ((((sectionChunks content).map
      (fun chunk => cliSectionPrompt audience chunk)).map g).map cleanGen) =
      (sectionChunks content).map
        (fun ch => cleanGen (g (cliSectionPrompt audience ch))) := by
    rw [List.map_map, List.map_map]
    rfl
  constructor
  · simp only [cliGenerateHF, cliGenerateHFCore, genRaws_ok]
    unfold cliProcessOutputs
    rw [hmap]
    unfold cliAssembleOrFallback
    rw [if_neg h]
  · rw [List.length_map]
    unfold sectionChunks
    rw [List.length_map, List.length_range]

/-- A constant oracle continuation longer than 20 characters. -/
def longText : PyStr :=
  "This generated section is certainly longer than twenty characters.".toList

/-- Witness for C10 at a concrete oracle and three-line content. -/
theorem lenient_sections_exactly_three_witness :
    (cliGenerateHF (fun p => Except.ok ((fun _ => longText) p))
        "x\ny\nz".toList "business".toList).sections =
      (sectionChunks "x\ny\nz".toList).map
        (fun ch => cleanGen ((fun _ => longText)
          (cliSectionPrompt "business".toList ch))) ∧
    ((sectionChunks "x\ny\nz".toList).map
        (fun ch => cleanGen ((fun _ => longText)
          (cliSectionPrompt "business".toList ch)))).length = 3 :=
  lenient_sections_exactly_three (fun _ => longText) "x\ny\nz".toList
    "business".toList (by decide)

/-- After the header checks succeed, the filesystem returned by the
file-upload handler is the saved state with the uploaded path removed,
whatever the body outcome. -/
theorem generateFromFile_fs (fs : List PyStr) (origName secName : PyStr)
    (er : Option PyStr) (go : Except PyStr (Option Newsletter))
    (hn : origName ≠ []) (ha : allowed_file origName = true) :
    (generateFromFile fs true origName secName er go).2 =
      (("uploads/".toList ++ secName) :: fs).filter
        (fun p => p ≠ "uploads/".toList ++ secName) := by
  unfold generateFromFile
  rw [if_neg (by simp), if_neg hn, if_neg (by simp [ha])]

/-- C9: whenever the upload is saved (a file is present with a non-empty
allowed name), the temporary path `uploads/<name>` is absent from the
filesystem after the request completes, for every extraction and
generation outcome including raised errors, and no other path is created
or removed by the request. -/
theorem upload_cleanup (fs : List PyStr) (origName secName : PyStr)
    (extractResult : Option PyStr)
    (genOutcome : Except PyStr (Option Newsletter))
    (hn : origName ≠ []) (ha : allowed_file origName = true) :
    ("uploads/".toList ++ secName) ∉
      (generateFromFile fs true origName secName extractResult genOutcome).2 ∧
    (∀ p : PyStr, p ≠ "uploads/".toList ++ secName →
      (p ∈ (generateFromFile fs true origName secName extractResult
          genOutcome).2 ↔ p ∈ fs)) := by
  rw [generateFromFile_fs fs origName secName extractResult genOutcome hn ha]
  constructor
  · simp [List.mem_filter]
  · intro p hp
    rw [List.mem_filter, List.mem_cons]
    constructor
    · rintro ⟨rfl | hm, _⟩
      · exact absurd rfl hp
      · exact hm
    · intro hm
      exact ⟨Or.inr hm, decide_eq_true hp⟩

/-- Witness for C9 at a concrete upload of `a.pdf` with a raising
generation outcome over the empty filesystem extended by a pre-existing
unrelated file. -/
theorem upload_cleanup_witness :
    ("uploads/".toList ++ "a.pdf".toList) ∉
      (generateFromFile ["keep.txt".toList] true "a.pdf".toList
        "a.pdf".toList (some "c".toList)
        (Except.error "boom".toList)).2 ∧
    (∀ p : PyStr, p ≠ "uploads/".toList ++ "a.pdf".toList →
      (p ∈ (generateFromFile ["keep.txt".toList] true "a.pdf".toList
          "a.pdf".toList (some "c".toList)
          (Except.error "boom".toList)).2 ↔ p ∈ ["keep.txt".toList])) :=
  upload_cleanup ["keep.txt".toList] "a.pdf".toList "a.pdf".toList
    (some "c".toList) (Except.error "boom".toList) (by decide) (by decide)
